import Mathlib

/-!
Verification development for the SwapDecks marketplace purchase and balance
flow.  The embedding covers the two purchase dialogs
(src/components/marketplace/BuyDeckDialog.tsx and the recharge-enabled
variant bundled in src/components/marketplace/PurchasedDeckDialog.tsx) and
the two payment route files (api.js and src/server/routes/stripe.ts).
Monetary values carried by the JavaScript code are numbers in major
currency units; they are modelled as exact rationals, and the single
integer-producing step, Math.round, is modelled explicitly.
-/

namespace SwapDecks

abbrev UserId := String
abbrev DeckId := String

/-- JavaScript Math.round on an exact rational: round half toward positive
infinity. -/
def mathRound (q : ℚ) : ℤ := ⌊q + 1/2⌋

/-- The unit_amount field submitted to the payment processor by the
create-checkout-session routes of api.js and of stripe.ts:
Math.round(amount * 100), where amount (or price) is a number in major
currency units. -/
def checkoutUnitAmount (amount : ℚ) : ℤ := mathRound (amount * 100)

/-- Seller transfer amount created by the process-purchase route of api.js:
Math.round(amount * 0.9 * 100), ninety percent of the sale in cents. -/
def processPurchaseSellerAmount (amount : ℚ) : ℤ :=
  mathRound (amount * (9/10) * 100)

/-- Outcome surfaced to the user by one run of a purchase dialog handler.
The toast variant (BuyDeckDialog.tsx) uses signInRequired, purchaseError,
insufficientBalanceToast and purchased; the recharge-enabled variant
additionally produces rechargeRedirect and rechargeFailed. -/
inductive PurchaseOutcome where
  | signInRequired
  | purchaseError
  | insufficientBalanceToast
  | rechargeRedirect (amount : ℚ) (url : String)
  | rechargeFailed
  | purchased
  deriving DecidableEq, Repr

/-- Observable state: the userBalance React state displayed by the dialog,
the per-user balances readable through getUserBalance, the ownership
records, the trace of purchaseDeck / processDeckPurchase invocations, and
the transfers issued to seller accounts (in cents). -/
structure AppState where
  userBalance : ℚ
  balances : List (UserId × ℚ)
  owned : List (UserId × DeckId)
  purchaseCalls : List (UserId × DeckId)
  transfers : List (UserId × ℤ)
  deriving DecidableEq, Repr

/-- Modelled from the spec: the implementation of the ownership write used
by purchaseDeck and processDeckPurchase (src/lib/api/decks) is not among
the sources; the spec states that recordOwnership is idempotent, so
re-applying an already present (buyerId, itemId) pair is a no-op. -/
def recordOwnership (u : UserId) (d : DeckId)
    (l : List (UserId × DeckId)) : List (UserId × DeckId) :=
  if (u, d) ∈ l then l else (u, d) :: l

/-- Modelled from the spec: the effect of a successful processDeckPurchase
or purchaseDeck backend call (src/lib/api/decks is not among the sources).
Per the spec, settlement grants ownership idempotently and credits the
seller the ninety percent split; the transferred amount is the one the
process-purchase route of api.js computes. -/
def processDeckPurchase (u : UserId) (d : DeckId) (sellerId : UserId)
    (price : ℚ) (st : AppState) : AppState :=
  { st with
      owned := recordOwnership u d st.owned,
      transfers := st.transfers ++ [(sellerId, processPurchaseSellerAmount price)] }

namespace BuyDeckDialog

/-- The handlePurchase handler of src/components/marketplace/BuyDeckDialog.tsx
(the toast variant).  In order: missing user gives the sign-in toast; a price
that is falsy or not positive throws and is caught as a purchase error; a
userBalance below the price gives the insufficient-balance toast and returns;
otherwise purchaseDeck(user.id, deck.id, deck.price) is awaited (callOk says
whether it succeeds) and only after it returns successfully is
setUserBalance(prev minus price) applied. -/
def handlePurchase (user : Option UserId) (deckId : DeckId) (sellerId : UserId)
    (price : ℚ) (callOk : Bool) (st : AppState) : PurchaseOutcome × AppState :=
  match user with
  | none => (.signInRequired, st)
  | some u =>
    if price ≤ 0 then (.purchaseError, st)
    else if st.userBalance < price then (.insufficientBalanceToast, st)
    else
      let st1 : AppState := { st with purchaseCalls := st.purchaseCalls ++ [(u, deckId)] }
      if callOk then
        (.purchased,
          { processDeckPurchase u deckId sellerId price st1 with
              userBalance := st1.userBalance - price })
      else (.purchaseError, st1)

end BuyDeckDialog

namespace PurchasedDeckDialog

/-- The handleRecharge handler of the recharge-enabled dialog variant in
src/components/marketplace/PurchasedDeckDialog.tsx: it computes
amountToRecharge as deck.price minus userBalance, asks
createCreditCheckoutSession(user.id, amountToRecharge) for a redirect url
(modelled by the checkout argument) and redirects to it; a missing url is
thrown and caught as a recharge failure. -/
def handleRecharge (user : Option UserId) (price balance : ℚ)
    (checkout : ℚ → Option String) : PurchaseOutcome :=
  match user with
  | none => .signInRequired
  | some _ =>
    match checkout (price - balance) with
    | some url => .rechargeRedirect (price - balance) url
    | none => .rechargeFailed

/-- The handlePurchase handler of the recharge-enabled dialog variant in
src/components/marketplace/PurchasedDeckDialog.tsx: identical to the toast
variant except that an insufficient userBalance calls handleRecharge and
returns instead of toasting, and the successful call is
processDeckPurchase(user.id, deck.id, deck.price). -/
def handlePurchase (user : Option UserId) (deckId : DeckId) (sellerId : UserId)
    (price : ℚ) (callOk : Bool) (checkout : ℚ → Option String)
    (st : AppState) : PurchaseOutcome × AppState :=
  match user with
  | none => (.signInRequired, st)
  | some u =>
    if price ≤ 0 then (.purchaseError, st)
    else if st.userBalance < price then
      (handleRecharge (some u) price st.userBalance checkout, st)
    else
      let st1 : AppState := { st with purchaseCalls := st.purchaseCalls ++ [(u, deckId)] }
      if callOk then
        (.purchased,
          { processDeckPurchase u deckId sellerId price st1 with
              userBalance := st1.userBalance - price })
      else (.purchaseError, st1)

end PurchasedDeckDialog

/-- A parsed Stripe webhook event as both route files consume it: the event
id, the event type string, the session metadata (userId, deckId, and the
type field api.js stores), and the session amount_total in cents. -/
structure StripeEvent where
  eventId : String
  evType : String
  userId : UserId
  deckId : DeckId
  amountTotal : ℚ
  metadataType : String
  deriving DecidableEq, Repr

/-- Contract of stripe.webhooks.constructEvent as called by both webhook
routes: the signature header is verified against the raw, unparsed request
body; only when verification succeeds is the body parsed into an event,
otherwise the call throws. -/
def constructEvent (verify : String → String → Bool)
    (parseBody : String → Option StripeEvent)
    (rawBody sigHeader : String) : Option StripeEvent :=
  if verify rawBody sigHeader then parseBody rawBody else none

/-- The webhook route of api.js: a failed constructEvent is answered with
status 400 before anything else runs; on success the switch over event.type
(checkout.session.completed, account.updated, default) only writes console
logs, so every verified event is acknowledged with 200 and received true
and no state is changed. -/
def apiWebhook (verify : String → String → Bool)
    (parseBody : String → Option StripeEvent)
    (rawBody sigHeader : String) (st : AppState) : ℕ × AppState :=
  match constructEvent verify parseBody rawBody sigHeader with
  | none => (400, st)
  | some ev =>
    if ev.evType = "checkout.session.completed" then (200, st)
    else if ev.evType = "account.updated" then (200, st)
    else (200, st)

/-- The webhook route of src/server/routes/stripe.ts: a failed
constructEvent is answered with status 400 before anything else runs.  A
checkout.session.completed event has purchaseDeck(userId, deckId) awaited
on the ids taken from the session metadata inside a try/catch: the
invocation itself is recorded in purchaseCalls; the implementation of
purchaseDeck (src/lib/api/decks) is outside the sources, so its state
effect is taken as the parameter eff and purchaseOk says whether the
awaited call succeeds.  When it succeeds the route answers 200 with the
backend effect applied; when it throws, the catch branch answers 500 and
the backend effect is not applied.  Every other event type is
acknowledged 200 untouched. -/
def stripeWebhook (eff : UserId → DeckId → AppState → AppState)
    (purchaseOk : Bool) (verify : String → String → Bool)
    (parseBody : String → Option StripeEvent)
    (rawBody sigHeader : String) (st : AppState) : ℕ × AppState :=
  match constructEvent verify parseBody rawBody sigHeader with
  | none => (400, st)
  | some ev =>
    if ev.evType = "checkout.session.completed" then
      let st1 : AppState :=
        { st with purchaseCalls := st.purchaseCalls ++ [(ev.userId, ev.deckId)] }
      if purchaseOk then (200, eff ev.userId ev.deckId st1)
      else (500, st1)
    else (200, st)

/-- One possible backend effect for the concrete runs, modelled from the
spec: the purchaseDeck implementation is outside the sources, and the spec
words make the ownership write idempotent, so this instance grants
ownership through recordOwnership and touches nothing else.  The webhook
theorems quantify over the backend effect rather than fixing this one. -/
def purchaseDeckGrant (u : UserId) (d : DeckId) (st : AppState) : AppState :=
  { st with owned := recordOwnership u d st.owned }

/-- Iterated delivery of one and the same webhook request to the stripe.ts
route, modelling at-least-once delivery by the processor, with the backend
effect and its success passed through. -/
def deliverStripeN (eff : UserId → DeckId → AppState → AppState)
    (purchaseOk : Bool) (verify : String → String → Bool)
    (parseBody : String → Option StripeEvent)
    (rawBody sigHeader : String) : ℕ → AppState → AppState
  | 0, st => st
  | Nat.succ n, st =>
      deliverStripeN eff purchaseOk verify parseBody rawBody sigHeader n
        (stripeWebhook eff purchaseOk verify parseBody rawBody sigHeader st).2

/-- Two overlapping invocations of the dialog purchase handler whose balance
pre-checks both read the userBalance value captured before either mutation
lands: the awaited purchase call separates the pre-check from the
setUserBalance functional update, so each invocation runs the branch
structure of handlePurchase against the captured balance b and, when its
check passed, applies the functional update prev minus price to whatever
the balance has become. -/
def interleavedPurchasePair (p1 p2 b : ℚ) : ℚ :=
  let a1 := if p1 ≤ 0 then b else if b < p1 then b else b - p1
  if p2 ≤ 0 then a1 else if b < p2 then a1 else a1 - p2

/-- Observation on dialog outcomes: whether the outcome is the
redirect-required recharge result carrying a top-up url. -/
def isRechargeRedirect : PurchaseOutcome → Bool
  | .rechargeRedirect _ _ => true
  | _ => false

/-- Observation on dialog outcomes: whether the outcome settles the
purchase. -/
def settles : PurchaseOutcome → Bool
  | .purchased => true
  | _ => false

/-- A signature verifier that accepts every request, for concrete runs. -/
def alwaysVerify : String → String → Bool := fun _ _ => true

/-- A body parse that yields one fixed event, for concrete runs. -/
def parseTo (ev : StripeEvent) : String → Option StripeEvent := fun _ => some ev

/-- A checkout-session creator that never yields a url, for concrete runs. -/
def noCheckout : ℚ → Option String := fun _ => none

/-- The initial ledger for the concrete runs: user u displayed and stored
with balance 0, nothing owned, no calls, no transfers. -/
def emptySt : AppState := ⟨0, [("u", 0)], [], [], []⟩

/-- A verified top-up completion event: checkout.session.completed carrying
recharge metadata for user u over 50000 cents (500 major units). -/
def rechargeEvent : StripeEvent :=
  ⟨"evt_topup_1", "checkout.session.completed", "u", "", 50000, "recharge"⟩

/-- A verified deck-purchase completion event: checkout.session.completed
carrying deck metadata (user u, deck d). -/
def deckEvent : StripeEvent :=
  ⟨"evt_deck_1", "checkout.session.completed", "u", "d", 70000, ""⟩

lemma mem_recordOwnership (u : UserId) (d : DeckId) (l : List (UserId × DeckId)) :
    (u, d) ∈ recordOwnership u d l := by
  unfold recordOwnership
  split
  · assumption
  · exact List.mem_cons_self _ _

lemma recordOwnership_of_mem {u : UserId} {d : DeckId} {l : List (UserId × DeckId)}
    (h : (u, d) ∈ l) : recordOwnership u d l = l := by
  unfold recordOwnership
  exact if_pos h

lemma recordOwnership_idem (u : UserId) (d : DeckId) (l : List (UserId × DeckId)) :
    recordOwnership u d (recordOwnership u d l) = recordOwnership u d l :=
  recordOwnership_of_mem (mem_recordOwnership u d l)

lemma effect_purchaseCalls (eff : UserId → DeckId → AppState → AppState)
    (heff : ∀ u d s calls, eff u d { s with purchaseCalls := calls }
        = { eff u d s with purchaseCalls := calls })
    (u : UserId) (d : DeckId) (s : AppState) :
    (eff u d s).purchaseCalls = s.purchaseCalls := by
  have h := heff u d s s.purchaseCalls
  have h2 : ({ s with purchaseCalls := s.purchaseCalls } : AppState) = s := rfl
  rw [h2] at h
  rw [h]

lemma stripeWebhook_completed_ok (eff : UserId → DeckId → AppState → AppState)
    (verify : String → String → Bool) (parseBody : String → Option StripeEvent)
    (raw sig : String) (ev : StripeEvent) (st : AppState)
    (hc : constructEvent verify parseBody raw sig = some ev)
    (ht : ev.evType = "checkout.session.completed") :
    stripeWebhook eff true verify parseBody raw sig st
      = (200, eff ev.userId ev.deckId
          { st with purchaseCalls := st.purchaseCalls ++ [(ev.userId, ev.deckId)] }) := by
  unfold stripeWebhook
  rw [hc]
  dsimp only
  rw [if_pos ht]
  rfl

lemma stripeWebhook_completed_fail (eff : UserId → DeckId → AppState → AppState)
    (verify : String → String → Bool) (parseBody : String → Option StripeEvent)
    (raw sig : String) (ev : StripeEvent) (st : AppState)
    (hc : constructEvent verify parseBody raw sig = some ev)
    (ht : ev.evType = "checkout.session.completed") :
    stripeWebhook eff false verify parseBody raw sig st
      = (500, { st with purchaseCalls := st.purchaseCalls ++ [(ev.userId, ev.deckId)] }) := by
  unfold stripeWebhook
  rw [hc]
  dsimp only
  rw [if_pos ht]
  rfl

lemma stripeWebhook_twice (eff : UserId → DeckId → AppState → AppState)
    (verify : String → String → Bool) (parseBody : String → Option StripeEvent)
    (raw sig : String) (ev : StripeEvent)
    (heff : ∀ u d s calls, eff u d { s with purchaseCalls := calls }
        = { eff u d s with purchaseCalls := calls })
    (hidem : ∀ u d s, eff u d (eff u d s) = eff u d s)
    (hc : constructEvent verify parseBody raw sig = some ev)
    (ht : ev.evType = "checkout.session.completed") (st : AppState) :
    (stripeWebhook eff true verify parseBody raw sig
        (stripeWebhook eff true verify parseBody raw sig st).2).2
      = { (stripeWebhook eff true verify parseBody raw sig st).2 with
            purchaseCalls :=
              (stripeWebhook eff true verify parseBody raw sig st).2.purchaseCalls
                ++ [(ev.userId, ev.deckId)] } := by
  have h1 := stripeWebhook_completed_ok eff verify parseBody raw sig ev st hc ht
  rw [h1]
  dsimp only
  rw [stripeWebhook_completed_ok eff verify parseBody raw sig ev _ hc ht]
  dsimp only
  rw [heff]
  rw [hidem]

lemma deliverStripeN_ledger (eff : UserId → DeckId → AppState → AppState)
    (verify : String → String → Bool) (parseBody : String → Option StripeEvent)
    (raw sig : String) (ev : StripeEvent)
    (heff : ∀ u d s calls, eff u d { s with purchaseCalls := calls }
        = { eff u d s with purchaseCalls := calls })
    (hidem : ∀ u d s, eff u d (eff u d s) = eff u d s)
    (hc : constructEvent verify parseBody raw sig = some ev)
    (ht : ev.evType = "checkout.session.completed") (k : ℕ) :
    ∀ st : AppState,
      ((deliverStripeN eff true verify parseBody raw sig k
          (stripeWebhook eff true verify parseBody raw sig st).2).userBalance,
       (deliverStripeN eff true verify parseBody raw sig k
          (stripeWebhook eff true verify parseBody raw sig st).2).balances,
       (deliverStripeN eff true verify parseBody raw sig k
          (stripeWebhook eff true verify parseBody raw sig st).2).owned,
       (deliverStripeN eff true verify parseBody raw sig k
          (stripeWebhook eff true verify parseBody raw sig st).2).transfers)
        = ((stripeWebhook eff true verify parseBody raw sig st).2.userBalance,
           (stripeWebhook eff true verify parseBody raw sig st).2.balances,
           (stripeWebhook eff true verify parseBody raw sig st).2.owned,
           (stripeWebhook eff true verify parseBody raw sig st).2.transfers) := by
  induction k with
  | zero => intro st; rfl
  | succ k ih =>
    intro st
    have hstep : deliverStripeN eff true verify parseBody raw sig (k + 1)
        (stripeWebhook eff true verify parseBody raw sig st).2
      = deliverStripeN eff true verify parseBody raw sig k
          (stripeWebhook eff true verify parseBody raw sig
            (stripeWebhook eff true verify parseBody raw sig st).2).2 := rfl
    rw [hstep, ih (stripeWebhook eff true verify parseBody raw sig st).2,
      stripeWebhook_twice eff verify parseBody raw sig ev heff hidem hc ht st]

/-- Claim C1, counterexample.  The claim states that the balance never goes
negative and that the non-negativity check runs inside the same atomic
transaction as the mutation.  In the code the only check is the separate
userBalance pre-check of handlePurchase, applied before the awaited
purchase call, with setUserBalance landing afterwards: two overlapping
invocations of price 60 against a captured balance of 100 both pass the
check and leave the balance at minus 20, which is negative. -/
theorem c1_counterexample_interleaved_negative :
    interleavedPurchasePair 60 60 100 < 0 := by
  norm_num [interleavedPurchasePair]

/-- Claim C1 as amended.  In a sequential run the displayed balance stays
nonnegative, because each handler debits only after its pre-check found the
captured balance at least the price; the check is a separate pre-check
followed by a separate apply, so only non-overlapping runs are protected
(the counterexample shows an overlapping pair is not). -/
theorem c1_sequential_balance_nonneg
    (user : Option UserId) (d s : String) (p : ℚ) (ok : Bool)
    (checkout : ℚ → Option String) (st : AppState)
    (h : 0 ≤ st.userBalance) :
    0 ≤ (BuyDeckDialog.handlePurchase user d s p ok st).2.userBalance
    ∧ 0 ≤ (PurchasedDeckDialog.handlePurchase user d s p ok checkout st).2.userBalance := by
  cases user with
  | none =>
    exact ⟨h, h⟩
  | some u =>
    have hcases : ∀ q : ℚ, q = st.userBalance ∨ q = st.userBalance - p →
        ¬ st.userBalance < p → 0 ≤ q := by
      rintro q (rfl | rfl) hq
      · exact h
      · have := not_lt.mp hq
        linarith
    constructor <;>
    · simp only [BuyDeckDialog.handlePurchase, PurchasedDeckDialog.handlePurchase,
        processDeckPurchase]
      split_ifs with h1 h2 h3 <;>
        first
          | exact h
          | exact hcases _ (Or.inr rfl) h2

/-- Claim C1 witness. -/
theorem c1_witness :
    0 ≤ (BuyDeckDialog.handlePurchase (some "u") "d" "s" 60 true
          ⟨100, [], [], [], []⟩).2.userBalance
    ∧ 0 ≤ (PurchasedDeckDialog.handlePurchase (some "u") "d" "s" 60 true
          noCheckout ⟨100, [], [], [], []⟩).2.userBalance :=
  c1_sequential_balance_nonneg (some "u") "d" "s" 60 true noCheckout
    ⟨100, [], [], [], []⟩ (by norm_num)

/-- Claim C6.  A request whose signature does not verify against the raw
body is answered 400 by both webhook routes with the state untouched, and
the rejection is independent of how the body would parse, so only validly
signed requests reach event handling. -/
theorem c6_invalid_signature_rejected
    (eff : UserId → DeckId → AppState → AppState) (ok : Bool)
    (verify : String → String → Bool)
    (p1 p2 : String → Option StripeEvent)
    (raw sig : String) (st : AppState)
    (h : verify raw sig = false) :
    apiWebhook verify p1 raw sig st = (400, st)
    ∧ stripeWebhook eff ok verify p1 raw sig st = (400, st)
    ∧ apiWebhook verify p1 raw sig st = apiWebhook verify p2 raw sig st
    ∧ stripeWebhook eff ok verify p1 raw sig st
        = stripeWebhook eff ok verify p2 raw sig st := by
  simp [apiWebhook, stripeWebhook, constructEvent, h]

/-- Claim C6 witness. -/
theorem c6_witness :
    apiWebhook (fun _ _ => false) (parseTo rechargeEvent) "raw" "sig" emptySt
        = (400, emptySt)
    ∧ stripeWebhook purchaseDeckGrant true (fun _ _ => false) (parseTo rechargeEvent)
        "raw" "sig" emptySt = (400, emptySt)
    ∧ apiWebhook (fun _ _ => false) (parseTo rechargeEvent) "raw" "sig" emptySt
        = apiWebhook (fun _ _ => false) (fun _ => none) "raw" "sig" emptySt
    ∧ stripeWebhook purchaseDeckGrant true (fun _ _ => false) (parseTo rechargeEvent)
        "raw" "sig" emptySt
        = stripeWebhook purchaseDeckGrant true (fun _ _ => false) (fun _ => none)
        "raw" "sig" emptySt :=
  c6_invalid_signature_rejected purchaseDeckGrant true (fun _ _ => false)
    (parseTo rechargeEvent) (fun _ => none) "raw" "sig" emptySt rfl

/-- Claim C9, counterexample.  The claim states that the amount submitted
to the processor equals the amount in minor units exactly, with no
rounding step.  The create-checkout-session routes submit
Math.round(amount times 100): for the amount 1/200 of a major unit the
exact minor-unit value is 1/2, but the submitted unit_amount is 1. -/
theorem c9_counterexample_rounding :
    checkoutUnitAmount (1/200) = 1 ∧ ((1 : ℚ) ≠ (1/200 : ℚ) * 100) := by
  constructor
  · norm_num [checkoutUnitAmount, mathRound]
  · norm_num

/-- Claim C9 as amended.  Amounts are decimal numbers of major units and a
Math.round(amount times 100) step exists on the way to the processor; the
submitted unit_amount equals the exact minor-unit value precisely when
amount times 100 is an integer. -/
theorem c9_exact_when_integral (a : ℚ) (h : (a * 100).den = 1) :
    (checkoutUnitAmount a : ℚ) = a * 100 := by
  have hnum : ((a * 100).num : ℚ) = a * 100 :=
    Rat.coe_int_num_of_den_eq_one h
  have hfloor : ⌊a * 100 + 1/2⌋ = (a * 100).num := by
    rw [Int.floor_eq_iff]
    constructor
    · rw [hnum]; linarith
    · rw [hnum]; linarith
  unfold checkoutUnitAmount mathRound
  rw [hfloor, hnum]

/-- Claim C9 witness. -/
theorem c9_witness : ((checkoutUnitAmount (7/100) : ℚ) = (7/100 : ℚ) * 100) :=
  c9_exact_when_integral (7/100) (by norm_num)

/-- Claim C2, counterexample.  The claim states that every verified
top-up-completed webhook event credits the user balance by the confirmed
amount, marks the Top-Up Intent confirmed and settles blocked purchases in
FIFO order.  A verified checkout.session.completed event with recharge
metadata for user u over 50000 cents is acknowledged with 200 by the
api.js webhook route, yet the state, balances included, is exactly the one
before: no credit is applied, and no intent records exist in the code at
all. -/
theorem c2_counterexample_no_credit :
    apiWebhook alwaysVerify (parseTo rechargeEvent) "raw" "sig" emptySt
        = (200, emptySt)
    ∧ emptySt.balances ≠ [("u", (500 : ℚ))] := by
  constructor
  · rfl
  · simp [emptySt]

/-- Claim C2 as amended.  For every verified checkout.session.completed
event: the api.js route acknowledges with 200 and changes no state, so no
balance credit, no intent confirmation, and no FIFO settlement happen
there; the stripe.ts route invokes purchaseDeck(userId, deckId) on the
session metadata exactly once per delivery without any client re-issue,
answering 200 with the backend effect applied when the awaited call
succeeds, and 500 from the catch branch with no backend effect applied
when it throws.  The purchaseDeck implementation is outside the sources,
so the statement quantifies over its state effect, assuming only that the
backend does not rewrite the invocation trace. -/
theorem c2_webhook_invokes_without_client
    (eff : UserId → DeckId → AppState → AppState) (ok : Bool)
    (verify : String → String → Bool) (parseBody : String → Option StripeEvent)
    (raw sig : String) (ev : StripeEvent) (st : AppState)
    (heff : ∀ u d s calls, eff u d { s with purchaseCalls := calls }
        = { eff u d s with purchaseCalls := calls })
    (hc : constructEvent verify parseBody raw sig = some ev)
    (ht : ev.evType = "checkout.session.completed") :
    apiWebhook verify parseBody raw sig st = (200, st)
    ∧ (stripeWebhook eff ok verify parseBody raw sig st).2.purchaseCalls
        = st.purchaseCalls ++ [(ev.userId, ev.deckId)]
    ∧ stripeWebhook eff true verify parseBody raw sig st
        = (200, eff ev.userId ev.deckId
            { st with purchaseCalls := st.purchaseCalls ++ [(ev.userId, ev.deckId)] })
    ∧ (stripeWebhook eff false verify parseBody raw sig st).1 = 500
    ∧ (stripeWebhook eff false verify parseBody raw sig st).2.owned = st.owned
    ∧ (stripeWebhook eff false verify parseBody raw sig st).2.balances = st.balances := by
  have hok := stripeWebhook_completed_ok eff verify parseBody raw sig ev st hc ht
  have hfail := stripeWebhook_completed_fail eff verify parseBody raw sig ev st hc ht
  have happ : apiWebhook verify parseBody raw sig st = (200, st) := by
    unfold apiWebhook
    rw [hc]
    dsimp only
    split_ifs
    all_goals rfl
  refine ⟨happ, ?_, hok, ?_, ?_, ?_⟩
  · cases ok with
    | false => rw [hfail]
    | true =>
      rw [hok]
      dsimp only
      rw [effect_purchaseCalls eff heff]
  · rw [hfail]
  · rw [hfail]
  · rw [hfail]

/-- Claim C2 witness. -/
theorem c2_witness :
    apiWebhook alwaysVerify (parseTo deckEvent) "raw" "sig" emptySt = (200, emptySt)
    ∧ (stripeWebhook purchaseDeckGrant false alwaysVerify (parseTo deckEvent)
        "raw" "sig" emptySt).2.purchaseCalls
        = emptySt.purchaseCalls ++ [(deckEvent.userId, deckEvent.deckId)]
    ∧ stripeWebhook purchaseDeckGrant true alwaysVerify (parseTo deckEvent)
        "raw" "sig" emptySt
        = (200, purchaseDeckGrant deckEvent.userId deckEvent.deckId
            { emptySt with purchaseCalls :=
                emptySt.purchaseCalls ++ [(deckEvent.userId, deckEvent.deckId)] })
    ∧ (stripeWebhook purchaseDeckGrant false alwaysVerify (parseTo deckEvent)
        "raw" "sig" emptySt).1 = 500
    ∧ (stripeWebhook purchaseDeckGrant false alwaysVerify (parseTo deckEvent)
        "raw" "sig" emptySt).2.owned = emptySt.owned
    ∧ (stripeWebhook purchaseDeckGrant false alwaysVerify (parseTo deckEvent)
        "raw" "sig" emptySt).2.balances = emptySt.balances :=
  c2_webhook_invokes_without_client purchaseDeckGrant false alwaysVerify
    (parseTo deckEvent) "raw" "sig" deckEvent emptySt (fun _ _ _ _ => rfl) rfl rfl

/-- The ledger for the repeated-purchase runs: user u already owns deck d
and displays balance 100. -/
def ownedSt : AppState := ⟨100, [("u", 100)], [("u", "d")], [], []⟩

/-- Claim C3, counterexample.  The claim states that redelivering the same
webhook event produces the same final state as one delivery, with an
already processed externalEventId skipped and no mutation re-applied.
Neither route records processed event ids: delivering the same verified
deck-purchase event twice to the stripe.ts route makes it invoke the
purchaseDeck mutation twice, where one delivery invokes it once, so the
final states differ in the issued calls. -/
theorem c3_counterexample_mutation_reapplied :
    (deliverStripeN purchaseDeckGrant true alwaysVerify (parseTo deckEvent)
        "raw" "sig" 2 emptySt).purchaseCalls = [("u", "d"), ("u", "d")]
    ∧ (deliverStripeN purchaseDeckGrant true alwaysVerify (parseTo deckEvent)
        "raw" "sig" 1 emptySt).purchaseCalls = [("u", "d")] := by
  exact ⟨rfl, rfl⟩

/-- Claim C3 as amended.  There is no event-id deduplication, so an already
processed externalEventId is not skipped: every delivery of a verified
checkout.session.completed event re-invokes purchaseDeck, each such
delivery with a succeeding call being answered 200.  Since the
purchaseDeck implementation is outside the sources, its state effect is
quantified, and the ledger (displayed balance, stored balances, ownership,
transfers) after n greater or equal 1 succeeding deliveries equals the
ledger after one delivery exactly under the assumption that the backend
call is idempotent and acts on the ledger with the invocation trace
carried through, as the spec words assert for the ownership grant but not
for settlement balance writes; the api.js route changes no state at all,
so its redelivery is trivially idempotent. -/
theorem c3_redelivery_ledger_idempotent
    (eff : UserId → DeckId → AppState → AppState)
    (verify : String → String → Bool) (parseBody : String → Option StripeEvent)
    (raw sig : String) (ev : StripeEvent) (n : ℕ) (st : AppState)
    (heff : ∀ u d s calls, eff u d { s with purchaseCalls := calls }
        = { eff u d s with purchaseCalls := calls })
    (hidem : ∀ u d s, eff u d (eff u d s) = eff u d s)
    (hc : constructEvent verify parseBody raw sig = some ev)
    (ht : ev.evType = "checkout.session.completed")
    (hn : 1 ≤ n) :
    (deliverStripeN eff true verify parseBody raw sig n st).userBalance
        = (deliverStripeN eff true verify parseBody raw sig 1 st).userBalance
    ∧ (deliverStripeN eff true verify parseBody raw sig n st).balances
        = (deliverStripeN eff true verify parseBody raw sig 1 st).balances
    ∧ (deliverStripeN eff true verify parseBody raw sig n st).owned
        = (deliverStripeN eff true verify parseBody raw sig 1 st).owned
    ∧ (deliverStripeN eff true verify parseBody raw sig n st).transfers
        = (deliverStripeN eff true verify parseBody raw sig 1 st).transfers
    ∧ (∀ k : ℕ, (stripeWebhook eff true verify parseBody raw sig
          (deliverStripeN eff true verify parseBody raw sig k st)).1 = 200)
    ∧ (apiWebhook verify parseBody raw sig st).2 = st := by
  have hstatus : ∀ s : AppState,
      (stripeWebhook eff true verify parseBody raw sig s).1 = 200 := by
    intro s
    rw [stripeWebhook_completed_ok eff verify parseBody raw sig ev s hc ht]
  have hapi : (apiWebhook verify parseBody raw sig st).2 = st := by
    unfold apiWebhook
    rw [hc]
    dsimp only
    split_ifs
    all_goals rfl
  obtain ⟨m, rfl⟩ : ∃ m, n = m + 1 := ⟨n - 1, (Nat.succ_pred_eq_of_pos hn).symm⟩
  have hl := deliverStripeN_ledger eff verify parseBody raw sig ev heff hidem hc ht m st
  simp only [Prod.mk.injEq] at hl
  exact ⟨hl.1, hl.2.1, hl.2.2.1, hl.2.2.2, fun k => hstatus _, hapi⟩

/-- Claim C3 witness. -/
theorem c3_witness :
    (deliverStripeN purchaseDeckGrant true alwaysVerify (parseTo deckEvent)
        "raw" "sig" 3 emptySt).userBalance
        = (deliverStripeN purchaseDeckGrant true alwaysVerify (parseTo deckEvent)
        "raw" "sig" 1 emptySt).userBalance
    ∧ (deliverStripeN purchaseDeckGrant true alwaysVerify (parseTo deckEvent)
        "raw" "sig" 3 emptySt).balances
        = (deliverStripeN purchaseDeckGrant true alwaysVerify (parseTo deckEvent)
        "raw" "sig" 1 emptySt).balances
    ∧ (deliverStripeN purchaseDeckGrant true alwaysVerify (parseTo deckEvent)
        "raw" "sig" 3 emptySt).owned
        = (deliverStripeN purchaseDeckGrant true alwaysVerify (parseTo deckEvent)
        "raw" "sig" 1 emptySt).owned
    ∧ (deliverStripeN purchaseDeckGrant true alwaysVerify (parseTo deckEvent)
        "raw" "sig" 3 emptySt).transfers
        = (deliverStripeN purchaseDeckGrant true alwaysVerify (parseTo deckEvent)
        "raw" "sig" 1 emptySt).transfers
    ∧ (∀ k : ℕ, (stripeWebhook purchaseDeckGrant true alwaysVerify (parseTo deckEvent)
        "raw" "sig" (deliverStripeN purchaseDeckGrant true alwaysVerify
          (parseTo deckEvent) "raw" "sig" k emptySt)).1 = 200)
    ∧ (apiWebhook alwaysVerify (parseTo deckEvent) "raw" "sig" emptySt).2 = emptySt :=
  c3_redelivery_ledger_idempotent purchaseDeckGrant alwaysVerify (parseTo deckEvent)
    "raw" "sig" deckEvent 3 emptySt (fun _ _ _ _ => rfl)
    (by
      intro u d s
      simp [purchaseDeckGrant, recordOwnership_idem])
    rfl rfl (by norm_num)

/-- Claim C4, counterexample.  The claim states that every purchase request
with balance strictly below the price yields a redirect-required result
carrying a top-up url for price minus balance.  The handlePurchase handler
of BuyDeckDialog.tsx, on a signed-in purchase of price 10 against balance
5, resolves to the insufficient-balance toast: no redirect result, no url,
no top-up created, state unchanged. -/
theorem c4_counterexample_toast_without_redirect :
    (BuyDeckDialog.handlePurchase (some "u") "d" "s" 10 true
        ⟨5, [], [], [], []⟩).1 = PurchaseOutcome.insufficientBalanceToast
    ∧ isRechargeRedirect (BuyDeckDialog.handlePurchase (some "u") "d" "s" 10 true
        ⟨5, [], [], [], []⟩).1 = false
    ∧ (BuyDeckDialog.handlePurchase (some "u") "d" "s" 10 true
        ⟨5, [], [], [], []⟩).2 = ⟨5, [], [], [], []⟩
    ∧ ((5 : ℚ) < 10) := by
  norm_num [BuyDeckDialog.handlePurchase, isRechargeRedirect]

/-- Claim C4 as amended.  In the recharge-enabled dialog variant an
insufficient balance resolves, when the checkout session is created, to a
recharge redirect carrying the url and the amount price minus balance,
with the purchase not settled and the state unchanged; the toast variant
of BuyDeckDialog.tsx instead surfaces refill guidance with no redirect and
no top-up created. -/
theorem c4_insufficient_becomes_redirect
    (u d s url : String) (p : ℚ) (ok : Bool)
    (checkout : ℚ → Option String) (st : AppState)
    (hp : 0 < p) (hlt : st.userBalance < p)
    (hc : checkout (p - st.userBalance) = some url) :
    PurchasedDeckDialog.handlePurchase (some u) d s p ok checkout st
      = (PurchaseOutcome.rechargeRedirect (p - st.userBalance) url, st) := by
  simp [PurchasedDeckDialog.handlePurchase, PurchasedDeckDialog.handleRecharge,
    not_le.mpr hp, hlt, hc]

/-- Claim C4 witness. -/
theorem c4_witness :
    PurchasedDeckDialog.handlePurchase (some "u") "d" "s" 10 true
        (fun _ => some "pay.example") ⟨5, [], [], [], []⟩
      = (PurchaseOutcome.rechargeRedirect ((10 : ℚ) - (⟨5, [], [], [], []⟩ : AppState).userBalance)
          "pay.example", ⟨5, [], [], [], []⟩) :=
  c4_insufficient_becomes_redirect "u" "d" "s" "pay.example" 10 true
    (fun _ => some "pay.example") ⟨5, [], [], [], []⟩ (by norm_num) (by norm_num) rfl

/-- Claim C5, counterexample.  The claim states that with an Ownership
Record already present a repeated purchase call returns success with no
ledger mutation and no second debit.  With (u, d) already owned and
balance 100, a repeated purchase of price 60 re-invokes the purchase API
and debits the displayed balance to 40: the handlers contain no ownership
pre-check. -/
theorem c5_counterexample_second_debit :
    (PurchasedDeckDialog.handlePurchase (some "u") "d" "s" 60 true noCheckout
        ownedSt).1 = PurchaseOutcome.purchased
    ∧ (PurchasedDeckDialog.handlePurchase (some "u") "d" "s" 60 true noCheckout
        ownedSt).2.userBalance = 40
    ∧ (PurchasedDeckDialog.handlePurchase (some "u") "d" "s" 60 true noCheckout
        ownedSt).2.purchaseCalls = [("u", "d")]
    ∧ ownedSt.owned = [("u", "d")] ∧ ownedSt.userBalance = 100
    ∧ ownedSt.purchaseCalls = [] := by
  norm_num [PurchasedDeckDialog.handlePurchase, processDeckPurchase, ownedSt]

/-- Claim C5 as amended.  Neither dialog handler checks for an existing
Ownership Record: whenever the balance covers the price, a repeated call
for an already-owned item re-invokes the purchase API and debits the
displayed balance again; only the ownership records stay as they were,
because the ownership write is idempotent (modelled from the spec). -/
theorem c5_no_ownership_precheck
    (u d s : String) (p : ℚ) (checkout : ℚ → Option String) (st : AppState)
    (hmem : (u, d) ∈ st.owned) (hp : 0 < p) (hle : p ≤ st.userBalance) :
    (PurchasedDeckDialog.handlePurchase (some u) d s p true checkout st).1
        = PurchaseOutcome.purchased
    ∧ (PurchasedDeckDialog.handlePurchase (some u) d s p true checkout st).2.userBalance
        = st.userBalance - p
    ∧ (PurchasedDeckDialog.handlePurchase (some u) d s p true checkout st).2.purchaseCalls
        = st.purchaseCalls ++ [(u, d)]
    ∧ (PurchasedDeckDialog.handlePurchase (some u) d s p true checkout st).2.owned
        = st.owned := by
  have h1 : ¬ (p ≤ 0) := not_le.mpr hp
  have h2 : ¬ (st.userBalance < p) := not_lt.mpr hle
  simp [PurchasedDeckDialog.handlePurchase, processDeckPurchase,
    h1, h2, recordOwnership_of_mem hmem]

/-- Claim C5 witness. -/
theorem c5_witness :
    (PurchasedDeckDialog.handlePurchase (some "u") "d" "s" 60 true noCheckout
        ownedSt).1 = PurchaseOutcome.purchased
    ∧ (PurchasedDeckDialog.handlePurchase (some "u") "d" "s" 60 true noCheckout
        ownedSt).2.userBalance = ownedSt.userBalance - 60
    ∧ (PurchasedDeckDialog.handlePurchase (some "u") "d" "s" 60 true noCheckout
        ownedSt).2.purchaseCalls = ownedSt.purchaseCalls ++ [("u", "d")]
    ∧ (PurchasedDeckDialog.handlePurchase (some "u") "d" "s" 60 true noCheckout
        ownedSt).2.owned = ownedSt.owned :=
  c5_no_ownership_precheck "u" "d" "s" 60 noCheckout ownedSt
    (by simp [ownedSt]) (by norm_num) (by norm_num [ownedSt])

/-- One concrete round trip as the code runs it: the confirmed top-up of
500 for user u delivered to the api.js webhook, followed by a purchase of
price 300 through the recharge-enabled dialog handler. -/
def topUpThenPurchase : PurchaseOutcome × AppState :=
  PurchasedDeckDialog.handlePurchase (some "u") "d" "s" 300 true noCheckout
    (apiWebhook alwaysVerify (parseTo rechargeEvent) "raw" "sig" emptySt).2

/-- Claim C7, counterexample.  The claim states that a confirmed top-up of
A followed by a purchase of P at most A settles with final balance A minus
P, the seller credited ninety percent of P, and one Ownership Record.  In
the code the webhook applies no credit at all, so with A 500 and P 300 the
purchase is blocked instead of settling: the final balance is 0 and not
200, nothing is owned and no transfer is made. -/
theorem c7_counterexample_topup_never_credited :
    topUpThenPurchase.2.userBalance = 0
    ∧ ((0 : ℚ) ≠ (500 : ℚ) - 300)
    ∧ topUpThenPurchase.2.owned = []
    ∧ topUpThenPurchase.2.transfers = []
    ∧ settles topUpThenPurchase.1 = false := by
  norm_num [topUpThenPurchase, PurchasedDeckDialog.handlePurchase,
    PurchasedDeckDialog.handleRecharge, apiWebhook, constructEvent,
    alwaysVerify, parseTo, rechargeEvent, emptySt, noCheckout, settles]

/-- Claim C7 as amended.  The purchase half of the round trip does hold:
starting from a displayed balance already equal to A (the webhook credits
nothing, so the top-up half is absent from the code), a purchase of price
P with 0 less than P at most A settles, leaves the displayed balance at A
minus P, creates the single ownership record for the buyer and the deck,
and credits the seller Math.round of P times 0.9 times 100 cents, the
amount the process-purchase route computes, which is the exact ninety
percent split only when that value is an integer. -/
theorem c7_purchase_effects
    (u d s : String) (A P : ℚ) (checkout : ℚ → Option String) (st : AppState)
    (hb : st.userBalance = A) (hown : st.owned = []) (htr : st.transfers = [])
    (hp : 0 < P) (hPA : P ≤ A) :
    (PurchasedDeckDialog.handlePurchase (some u) d s P true checkout st).1
        = PurchaseOutcome.purchased
    ∧ (PurchasedDeckDialog.handlePurchase (some u) d s P true checkout st).2.userBalance
        = A - P
    ∧ (PurchasedDeckDialog.handlePurchase (some u) d s P true checkout st).2.owned
        = [(u, d)]
    ∧ (PurchasedDeckDialog.handlePurchase (some u) d s P true checkout st).2.transfers
        = [(s, mathRound (P * (9/10) * 100))] := by
  have h1 : ¬ (P ≤ 0) := not_le.mpr hp
  have h2 : ¬ (st.userBalance < P) := by rw [hb]; exact not_lt.mpr hPA
  have h3 : ¬ (A < P) := not_lt.mpr hPA
  simp [PurchasedDeckDialog.handlePurchase, processDeckPurchase,
    processPurchaseSellerAmount, h1, h2, h3, hb, hown, htr, recordOwnership]

/-- Claim C7 witness. -/
theorem c7_witness :
    (PurchasedDeckDialog.handlePurchase (some "u") "d" "s" 300 true noCheckout
        ⟨500, [], [], [], []⟩).1 = PurchaseOutcome.purchased
    ∧ (PurchasedDeckDialog.handlePurchase (some "u") "d" "s" 300 true noCheckout
        ⟨500, [], [], [], []⟩).2.userBalance = (500 : ℚ) - 300
    ∧ (PurchasedDeckDialog.handlePurchase (some "u") "d" "s" 300 true noCheckout
        ⟨500, [], [], [], []⟩).2.owned = [("u", "d")]
    ∧ (PurchasedDeckDialog.handlePurchase (some "u") "d" "s" 300 true noCheckout
        ⟨500, [], [], [], []⟩).2.transfers
        = [("s", mathRound ((300 : ℚ) * (9/10) * 100))] :=
  c7_purchase_effects "u" "d" "s" 500 300 noCheckout ⟨500, [], [], [], []⟩
    rfl rfl rfl (by norm_num) (by norm_num)

/-- Claim C8.  Both dialog handlers compare with userBalance strictly below
price: at balance exactly equal to the price the purchase settles, and at
balance price minus one it takes the blocked path, the toast in
BuyDeckDialog.tsx and the recharge path, which never settles and leaves
the state unchanged, in the recharge-enabled variant. -/
theorem c8_boundary_settles_vs_blocks
    (u d s : String) (p : ℚ) (checkout : ℚ → Option String)
    (stEq stLt : AppState) (hp : 0 < p)
    (hEq : stEq.userBalance = p) (hLt : stLt.userBalance = p - 1) :
    settles (BuyDeckDialog.handlePurchase (some u) d s p true stEq).1 = true
    ∧ settles (PurchasedDeckDialog.handlePurchase (some u) d s p true checkout stEq).1 = true
    ∧ (BuyDeckDialog.handlePurchase (some u) d s p true stLt).1
        = PurchaseOutcome.insufficientBalanceToast
    ∧ settles (PurchasedDeckDialog.handlePurchase (some u) d s p true checkout stLt).1 = false
    ∧ (PurchasedDeckDialog.handlePurchase (some u) d s p true checkout stLt).2 = stLt := by
  have h1 : ¬ (p ≤ 0) := not_le.mpr hp
  have h2 : ¬ (stEq.userBalance < p) := by rw [hEq]; exact lt_irrefl p
  have h3 : stLt.userBalance < p := by rw [hLt]; linarith
  refine ⟨?_, ?_, ?_, ?_, ?_⟩
  · simp only [BuyDeckDialog.handlePurchase, if_neg h1, if_neg h2, if_true, settles]
  · simp only [PurchasedDeckDialog.handlePurchase, if_neg h1, if_neg h2, if_true, settles]
  · simp only [BuyDeckDialog.handlePurchase, if_neg h1, if_pos h3]
  · simp only [PurchasedDeckDialog.handlePurchase, if_neg h1, if_pos h3]
    cases hch : checkout (p - stLt.userBalance) <;>
      simp [PurchasedDeckDialog.handleRecharge, hch, settles]
  · simp only [PurchasedDeckDialog.handlePurchase, if_neg h1, if_pos h3]

/-- Claim C8 witness. -/
theorem c8_witness :
    settles (BuyDeckDialog.handlePurchase (some "u") "d" "s" 10 true
        ⟨10, [], [], [], []⟩).1 = true
    ∧ settles (PurchasedDeckDialog.handlePurchase (some "u") "d" "s" 10 true noCheckout
        ⟨10, [], [], [], []⟩).1 = true
    ∧ (BuyDeckDialog.handlePurchase (some "u") "d" "s" 10 true
        ⟨9, [], [], [], []⟩).1 = PurchaseOutcome.insufficientBalanceToast
    ∧ settles (PurchasedDeckDialog.handlePurchase (some "u") "d" "s" 10 true noCheckout
        ⟨9, [], [], [], []⟩).1 = false
    ∧ (PurchasedDeckDialog.handlePurchase (some "u") "d" "s" 10 true noCheckout
        ⟨9, [], [], [], []⟩).2 = ⟨9, [], [], [], []⟩ :=
  c8_boundary_settles_vs_blocks "u" "d" "s" 10 noCheckout
    ⟨10, [], [], [], []⟩ ⟨9, [], [], [], []⟩ (by norm_num) rfl (by norm_num)

/-- Claim C10.  In both dialog handlers setUserBalance runs only after the
awaited purchase call returns: a failing call ends in the catch branch
with the displayed balance exactly as before the attempt, and a
successful call is what decrements it by the price. -/
theorem c10_failed_call_leaves_balance
    (u d s : String) (p : ℚ) (checkout : ℚ → Option String) (st : AppState)
    (hp : 0 < p) (hle : p ≤ st.userBalance) :
    (BuyDeckDialog.handlePurchase (some u) d s p false st).1
        = PurchaseOutcome.purchaseError
    ∧ (BuyDeckDialog.handlePurchase (some u) d s p false st).2.userBalance
        = st.userBalance
    ∧ (PurchasedDeckDialog.handlePurchase (some u) d s p false checkout st).1
        = PurchaseOutcome.purchaseError
    ∧ (PurchasedDeckDialog.handlePurchase (some u) d s p false checkout st).2.userBalance
        = st.userBalance
    ∧ (BuyDeckDialog.handlePurchase (some u) d s p true st).2.userBalance
        = st.userBalance - p
    ∧ (PurchasedDeckDialog.handlePurchase (some u) d s p true checkout st).2.userBalance
        = st.userBalance - p := by
  have h1 : ¬ (p ≤ 0) := not_le.mpr hp
  have h2 : ¬ (st.userBalance < p) := not_lt.mpr hle
  simp [BuyDeckDialog.handlePurchase, PurchasedDeckDialog.handlePurchase,
    processDeckPurchase, h1, h2]

/-- Claim C10 witness. -/
theorem c10_witness :
    (BuyDeckDialog.handlePurchase (some "u") "d" "s" 60 false
        ⟨100, [], [], [], []⟩).1 = PurchaseOutcome.purchaseError
    ∧ (BuyDeckDialog.handlePurchase (some "u") "d" "s" 60 false
        ⟨100, [], [], [], []⟩).2.userBalance = (⟨100, [], [], [], []⟩ : AppState).userBalance
    ∧ (PurchasedDeckDialog.handlePurchase (some "u") "d" "s" 60 false noCheckout
        ⟨100, [], [], [], []⟩).1 = PurchaseOutcome.purchaseError
    ∧ (PurchasedDeckDialog.handlePurchase (some "u") "d" "s" 60 false noCheckout
        ⟨100, [], [], [], []⟩).2.userBalance = (⟨100, [], [], [], []⟩ : AppState).userBalance
    ∧ (BuyDeckDialog.handlePurchase (some "u") "d" "s" 60 true
        ⟨100, [], [], [], []⟩).2.userBalance
        = (⟨100, [], [], [], []⟩ : AppState).userBalance - 60
    ∧ (PurchasedDeckDialog.handlePurchase (some "u") "d" "s" 60 true noCheckout
        ⟨100, [], [], [], []⟩).2.userBalance
        = (⟨100, [], [], [], []⟩ : AppState).userBalance - 60 :=
  c10_failed_call_leaves_balance "u" "d" "s" 60 noCheckout ⟨100, [], [], [], []⟩
    (by norm_num) (by norm_num)

end SwapDecks
